import Mathlib

/-!
Verification of the client-side dashboard data-aggregation and rendering pipeline
of the health-logging web application (static/js modules: health_dashboard.js,
symptom_timeline.js, health_risk_predictor.js, family_profiles.js).

Each definition is a shallow embedding of the corresponding JavaScript code.
JavaScript numbers appearing as severities or metric values are modelled as
rationals or integers as noted; absent (undefined or null) fields are modelled
with Option; JavaScript falsiness of strings is modelled as equality with the
empty string; DOM side effects are modelled as explicit state records.
-/

/-! ## Severity display classes (one copy per module)

The three modules each define getSeverityClass with the identical body:
if (severity <= 3) return 'success'; if (severity <= 6) return 'warning';
return 'danger'. Severity is a JavaScript number, modelled as a rational.
-/

/-- HealthDashboard.getSeverityClass (health_dashboard.js lines 745-749). -/
def dashboardGetSeverityClass (severity : ℚ) : String :=
  if severity ≤ 3 then "success"
  else if severity ≤ 6 then "warning"
  else "danger"

/-- SymptomTimeline.getSeverityClass (symptom_timeline.js lines 545-549). -/
def timelineGetSeverityClass (severity : ℚ) : String :=
  if severity ≤ 3 then "success"
  else if severity ≤ 6 then "warning"
  else "danger"

/-- FamilyProfiles.getSeverityClass (family_profiles.js lines 381-385). -/
def familyGetSeverityClass (severity : ℚ) : String :=
  if severity ≤ 3 then "success"
  else if severity ≤ 6 then "warning"
  else "danger"

/-- Modelled from the spec wording: success when severity is at most 3, warning
when severity is above 3 and at most 6, danger otherwise. Used as the reference
mapping for the extensional-equality claim about the three module copies. -/
def specSeverityClass (severity : ℚ) : String :=
  if severity ≤ 3 then "success"
  else if severity ≤ 6 then "warning"
  else "danger"

/-! ## Risk-level display classes

health_dashboard.js lines 343-347 and health_risk_predictor.js lines 139-143
initialise the class to "secondary" and then overwrite it with an if-chain in
source order. family_profiles.js lines 83-87 initialise the class to "success"
and check only moderate, high and critical.
-/

/-- Risk class computation of HealthDashboard.renderRiskAssessments
(health_dashboard.js lines 343-347). -/
def dashboardRiskClass (riskLevel : String) : String :=
  let c := "secondary"
  let c := if riskLevel = "low" then "success" else c
  let c := if riskLevel = "moderate" then "warning" else c
  let c := if riskLevel = "high" then "danger" else c
  if riskLevel = "critical" then "dark" else c

/-- Risk class computation of HealthRiskPredictor.renderRiskAssessments
(health_risk_predictor.js lines 139-143). -/
def predictorRiskClass (riskLevel : String) : String :=
  let c := "secondary"
  let c := if riskLevel = "low" then "success" else c
  let c := if riskLevel = "moderate" then "warning" else c
  let c := if riskLevel = "high" then "danger" else c
  if riskLevel = "critical" then "dark" else c

/-- Risk class computation of FamilyProfiles.renderFamilyMembers
(family_profiles.js lines 83-87): the initial value is "success" and the value
"low" is never tested, so every unrecognised risk level keeps "success". -/
def familyMemberRiskClass (riskLevel : String) : String :=
  let c := "success"
  let c := if riskLevel = "moderate" then "warning" else c
  let c := if riskLevel = "high" then "danger" else c
  if riskLevel = "critical" then "dark" else c

/-- Modelled from the spec wording: critical to dark, high to danger, moderate
to warning, low to success, anything else to secondary. -/
def specRiskClass (riskLevel : String) : String :=
  if riskLevel = "critical" then "dark"
  else if riskLevel = "high" then "danger"
  else if riskLevel = "moderate" then "warning"
  else if riskLevel = "low" then "success"
  else "secondary"

/-- C10: the three severity-to-display-class functions of the dashboard,
timeline and family-profiles modules are extensionally equal, agree with the
spec mapping, and return success for severity at most 3, warning for severity
in the half-open interval from 3 to 6, and danger above 6, for every rational
severity. Totality is immediate because the Lean functions are total. -/
theorem severity_class_functions_agree (severity : ℚ) :
    dashboardGetSeverityClass severity = timelineGetSeverityClass severity ∧
    dashboardGetSeverityClass severity = familyGetSeverityClass severity ∧
    dashboardGetSeverityClass severity = specSeverityClass severity ∧
    (severity ≤ 3 → dashboardGetSeverityClass severity = "success") ∧
    (3 < severity → severity ≤ 6 → dashboardGetSeverityClass severity = "warning") ∧
    (6 < severity → dashboardGetSeverityClass severity = "danger") := by
  refine ⟨rfl, rfl, rfl, ?_, ?_, ?_⟩
  · intro h
    simp [dashboardGetSeverityClass, h]
  · intro h1 h2
    simp [dashboardGetSeverityClass, not_le.mpr h1, h2]
  · intro h
    have h3 : ¬ severity ≤ 3 := not_le.mpr (lt_trans (by norm_num) h)
    have h6 : ¬ severity ≤ 6 := not_le.mpr h
    simp [dashboardGetSeverityClass, h3, h6]

/-- Witness for severity_class_functions_agree at severity 5. -/
theorem severity_class_functions_agree_witness :
    dashboardGetSeverityClass 5 = "warning" :=
  (severity_class_functions_agree 5).2.2.2.2.1 (by norm_num) (by norm_num)

/-- C3 counterexample: in family_profiles.js an unrecognised risk level maps to
the display class "success", not "secondary", so the claimed default fallback
does not hold in every module that renders a risk assessment. -/
theorem family_unknown_risk_level_not_secondary :
    familyMemberRiskClass "elevated" = "success" ∧
    familyMemberRiskClass "elevated" ≠ "secondary" := by
  constructor
  · rfl
  · decide

/-- C3 amended: the dashboard and predictor modules map risk levels exactly as
the spec mapping does (critical to dark, high to danger, moderate to warning,
low to success, anything else to secondary), while the family-profiles module
maps critical to dark, high to danger, moderate to warning, and every other
value, including low and unknown values, to success. All three mappings are
total and never throw. -/
theorem risk_level_display_class_mapping (riskLevel : String) :
    dashboardRiskClass riskLevel = specRiskClass riskLevel ∧
    predictorRiskClass riskLevel = specRiskClass riskLevel ∧
    familyMemberRiskClass riskLevel =
      (if riskLevel = "critical" then "dark"
       else if riskLevel = "high" then "danger"
       else if riskLevel = "moderate" then "warning"
       else "success") := by
  refine ⟨?_, ?_, ?_⟩ <;>
  · by_cases h1 : riskLevel = "low" <;>
    by_cases h2 : riskLevel = "moderate" <;>
    by_cases h3 : riskLevel = "high" <;>
    by_cases h4 : riskLevel = "critical" <;>
    simp_all [dashboardRiskClass, predictorRiskClass, familyMemberRiskClass,
      specRiskClass]

/-! ## Timeline dataset filtering (symptom_timeline.js, renderTimeline)

renderTimeline (lines 197-209) builds the bound chart datasets as
data.datasets.filter(dataset => dataset.data && dataset.data.some(point =>
point && point.y > 0)) when data.datasets is an array, and the empty list
otherwise. Points may be null and the y field may be absent; severities are
integers, so y is modelled as Option Int.
-/

/-- A point of a timeline dataset, shape x, y, record_id, notes with the three
last fields possibly absent. -/
structure TimelinePoint where
  x : String
  y : Option Int
  record_id : Option Nat
  notes : Option String
deriving DecidableEq

/-- A timeline dataset as delivered by the timeline endpoint. A null entry in
the data array is modelled as none, and a dataset whose data field is absent
has data none. -/
structure TimelineDataset where
  label : String
  symptom_category : Option String
  data : Option (List (Option TimelinePoint))
deriving DecidableEq

/-- The predicate point && point.y > 0 applied to one (possibly null) point. -/
def pointHasPositiveY : Option TimelinePoint → Bool
  | none => false
  | some p =>
    match p.y with
    | none => false
    | some v => decide (0 < v)

/-- The predicate dataset.data && dataset.data.some(point => point && point.y > 0). -/
def datasetHasPositivePoint (d : TimelineDataset) : Bool :=
  match d.data with
  | none => false
  | some pts => pts.any pointHasPositiveY

/-- The bound chart datasets computed by SymptomTimeline.renderTimeline
(symptom_timeline.js lines 198-203): the dataset list is filtered, keeping a
dataset, unmodified, exactly when it has a point with positive y; a missing
dataset array yields the empty list. -/
def renderTimelineChartDatasets (datasets : Option (List TimelineDataset)) :
    List TimelineDataset :=
  match datasets with
  | none => []
  | some ds => ds.filter datasetHasPositivePoint

/-- C1: a dataset in which every present point with a present y value has y at
most 0 (so every y value is nonpositive or missing) is excluded from the bound
chart datasets, and a dataset with at least one point whose y value is positive
is retained as the very same dataset, with its data array, including its zero
and negative points, untouched. -/
theorem timeline_dataset_filter_spec (ds : List TimelineDataset)
    (d : TimelineDataset) (hmem : d ∈ ds) :
    ((∀ pts, d.data = some pts → ∀ p ∈ pts, ∀ q, p = some q →
        ∀ v, q.y = some v → v ≤ 0) →
      d ∉ renderTimelineChartDatasets (some ds)) ∧
    ((∃ pts, d.data = some pts ∧ ∃ q, (some q) ∈ pts ∧ ∃ v, q.y = some v ∧ 0 < v) →
      d ∈ renderTimelineChartDatasets (some ds)) := by
  constructor
  · intro hall hmem2
    have hpos : datasetHasPositivePoint d = true :=
      (List.mem_filter.mp hmem2).2
    cases hd : d.data with
    | none => simp [datasetHasPositivePoint, hd] at hpos
    | some pts =>
      rw [datasetHasPositivePoint, hd] at hpos
      simp only [List.any_eq_true] at hpos
      obtain ⟨p, hp, hpp⟩ := hpos
      cases p with
      | none => simp [pointHasPositiveY] at hpp
      | some q =>
        cases hy : q.y with
        | none => simp [pointHasPositiveY, hy] at hpp
        | some v =>
          rw [pointHasPositiveY, hy] at hpp
          have hv : 0 < v := of_decide_eq_true hpp
          have hle : v ≤ 0 := hall pts hd (some q) hp q rfl v hy
          omega
  · rintro ⟨pts, hd, q, hq, v, hy, hv⟩
    refine List.mem_filter.mpr ⟨hmem, ?_⟩
    rw [datasetHasPositivePoint, hd]
    simp only [List.any_eq_true]
    refine ⟨some q, hq, ?_⟩
    rw [pointHasPositiveY, hy]
    exact decide_eq_true hv

/-- Witness for timeline_dataset_filter_spec: a dataset whose only point has
y = 0 is excluded, and a dataset containing a zero point and a positive point
is retained, for a concrete two-dataset input list. -/
theorem timeline_dataset_filter_witness :
    (⟨"Headache", some "Pain", some [some ⟨"2024-01-01", some 0, none, none⟩]⟩ :
        TimelineDataset) ∉
      renderTimelineChartDatasets (some
        [⟨"Headache", some "Pain", some [some ⟨"2024-01-01", some 0, none, none⟩]⟩,
         ⟨"Fever", some "General", some
           [some ⟨"2024-01-01", some 0, none, none⟩,
            some ⟨"2024-01-02", some 4, some 9, none⟩]⟩]) ∧
    (⟨"Fever", some "General", some
        [some ⟨"2024-01-01", some 0, none, none⟩,
         some ⟨"2024-01-02", some 4, some 9, none⟩]⟩ : TimelineDataset) ∈
      renderTimelineChartDatasets (some
        [⟨"Headache", some "Pain", some [some ⟨"2024-01-01", some 0, none, none⟩]⟩,
         ⟨"Fever", some "General", some
           [some ⟨"2024-01-01", some 0, none, none⟩,
            some ⟨"2024-01-02", some 4, some 9, none⟩]⟩]) := by
  constructor
  · refine (timeline_dataset_filter_spec _ _ (by decide)).1 ?_
    intro pts hpts p hp q hq v hv
    injection hpts with h
    subst h
    simp only [List.mem_singleton] at hp
    subst hp
    injection hq with h
    subst h
    injection hv with h
    omega
  · exact (timeline_dataset_filter_spec _ _ (by decide)).2
      ⟨_, rfl, ⟨"2024-01-02", some 4, some 9, none⟩, by decide, 4, rfl, by decide⟩

/-! ## Family member cards (family_profiles.js, renderFamilyMembers)

renderFamilyMembers (lines 73-149) builds one card per member. The recent
symptoms block is computed from health_summary.recent_symptoms but is inserted
into the card only behind the guard member.access_level === 'full'. JavaScript
falsiness is modelled: an absent or empty name falls back to User id, an absent
or zero age renders N/A, an absent or empty bmi suppresses the bmi line.
-/

/-- One entry of health_summary.recent_symptoms. -/
structure FamilyRecentSymptom where
  severity : Int
  symptom_name : String
  date : String
deriving DecidableEq

/-- health_summary.latest_risk_assessment. -/
structure FamilyLatestRisk where
  risk_level : String
  disease : String
deriving DecidableEq

/-- The nested health_summary object of a family member. The bmi value is
modelled by its rendered string. -/
structure FamilyHealthSummary where
  bmi : Option String
  bmi_category : Option String
  latest_risk_assessment : Option FamilyLatestRisk
  recent_symptoms : Option (List FamilyRecentSymptom)
deriving DecidableEq

/-- A family member as delivered by the family-dashboard endpoint. -/
structure FamilyMember where
  user_id : Option Nat
  name : Option String
  relationship : String
  access_level : String
  age : Option Nat
  gender : Option String
  health_summary : Option FamilyHealthSummary
deriving DecidableEq

/-- The healthStatus block (family_profiles.js lines 80-95), present when
health_summary.latest_risk_assessment is present. -/
def familyHealthStatusHtml (m : FamilyMember) : String :=
  match m.health_summary with
  | none => ""
  | some hs =>
    match hs.latest_risk_assessment with
    | none => ""
    | some risk =>
      "<div class=\"mt-2\"><span class=\"badge bg-" ++
        familyMemberRiskClass risk.risk_level ++ "\">" ++ risk.risk_level ++
        " risk</span><small class=\"text-muted ms-1\">" ++ risk.disease ++
        "</small></div>"

/-- One list item of the recent-symptoms block (family_profiles.js lines
104-109). -/
def familyRecentSymptomLi (s : FamilyRecentSymptom) : String :=
  "<li><span class=\"badge bg-" ++
    familyGetSeverityClass (s.severity : ℚ) ++ "\">" ++ toString s.severity ++
    "</span> " ++ s.symptom_name ++ " (" ++ s.date ++ ")</li>"

/-- The symptomsHtml block (family_profiles.js lines 97-113), present when
health_summary.recent_symptoms is a nonempty array. -/
def familySymptomsHtml (m : FamilyMember) : String :=
  match m.health_summary with
  | none => ""
  | some hs =>
    match hs.recent_symptoms with
    | none => ""
    | some syms =>
      if syms.length = 0 then ""
      else
        "<div class=\"mt-2 small\"><strong>Recent symptoms:</strong>" ++
          "<ul class=\"list-unstyled ms-1 mb-0\">" ++
          String.join (syms.map familyRecentSymptomLi) ++ "</ul></div>"

/-- The displayed member name: member.name falls back to User id when the name
is absent or empty (family_profiles.js line 120). -/
def familyMemberName (m : FamilyMember) : String :=
  match m.name with
  | some n => if n = "" then "User " ++ toString (m.user_id.getD 0) else n
  | none => "User " ++ toString (m.user_id.getD 0)

/-- The displayed age: falsy (absent or zero) renders N/A (line 127). -/
def familyAgeText (age : Option Nat) : String :=
  match age with
  | some a => if a = 0 then "N/A" else toString a
  | none => "N/A"

/-- The displayed gender: falsy (absent or empty) renders N/A (line 128). -/
def familyGenderText (gender : Option String) : String :=
  match gender with
  | some g => if g = "" then "N/A" else g
  | none => "N/A"

/-- The bmi line (family_profiles.js lines 129-132), present when
health_summary.bmi is truthy. -/
def familyBmiHtml (m : FamilyMember) : String :=
  match m.health_summary with
  | none => ""
  | some hs =>
    match hs.bmi with
    | none => ""
    | some b =>
      if b = "" then ""
      else
        "<div><strong>BMI:</strong> " ++ b ++ " (" ++
          (match hs.bmi_category with
           | none => "N/A"
           | some c => if c = "" then "N/A" else c) ++ ")</div>"

/-- The full rendered card of one family member (family_profiles.js lines
116-146). The recent-symptoms block is included only when access_level is
exactly "full". -/
def renderFamilyMemberCard (m : FamilyMember) : String :=
  "<div class=\"card h-100 " ++
    (if m.relationship = "self" then "border-primary" else "") ++
    "\"><div class=\"card-body\">" ++
    "<div class=\"d-flex justify-content-between\"><h6 class=\"card-title\">" ++
    familyMemberName m ++ "</h6>" ++
    (if m.relationship = "self" then ""
     else "<span class=\"badge bg-info\">" ++ m.relationship ++ "</span>") ++
    "</div><div class=\"mt-2 small\"><div><strong>Age:</strong> " ++
    familyAgeText m.age ++ "</div><div><strong>Gender:</strong> " ++
    familyGenderText m.gender ++ "</div>" ++
    familyBmiHtml m ++ "</div>" ++
    familyHealthStatusHtml m ++
    (if m.access_level = "full" then familySymptomsHtml m else "") ++
    (if m.relationship = "self" then ""
     else
       "<div class=\"mt-3\"><small class=\"text-muted\">Access level: " ++
         m.access_level ++ "</small></div>") ++
    "</div></div>"

/-- Replace the recent_symptoms field of the health summary of a member,
leaving every other field of the payload unchanged. -/
def setRecentSymptoms (m : FamilyMember)
    (r : Option (List FamilyRecentSymptom)) : FamilyMember :=
  { m with health_summary :=
      m.health_summary.map (fun hs => { hs with recent_symptoms := r }) }

/-- C2: for a family member whose access_level is not "full", the rendered card
is identical for any two payloads that differ only in
health_summary.recent_symptoms; in particular the card never surfaces the
recent symptoms even when the payload carries a nonempty list of them. -/
theorem family_limited_card_independent_of_recent_symptoms (m : FamilyMember)
    (r1 r2 : Option (List FamilyRecentSymptom))
    (h : m.access_level ≠ "full") :
    renderFamilyMemberCard (setRecentSymptoms m r1) =
      renderFamilyMemberCard (setRecentSymptoms m r2) := by
  cases hs : m.health_summary with
  | none =>
    simp [renderFamilyMemberCard, setRecentSymptoms, hs]
  | some s =>
    simp [renderFamilyMemberCard, setRecentSymptoms, hs, familyMemberName,
      familyBmiHtml, familyHealthStatusHtml, h]

/-- Witness for family_limited_card_independent_of_recent_symptoms: a member
with access_level "limited" renders the same card whether the payload carries
a nonempty recent_symptoms list or none at all. -/
theorem family_limited_card_witness :
    renderFamilyMemberCard
      (setRecentSymptoms
        ⟨some 2, some "Asha", "sister", "limited", some 31, some "female",
          some ⟨some "22.5", some "Normal weight",
            some ⟨"high", "Diabetes"⟩, none⟩⟩
        (some [⟨8, "Fever", "2024-03-01"⟩])) =
    renderFamilyMemberCard
      (setRecentSymptoms
        ⟨some 2, some "Asha", "sister", "limited", some 31, some "female",
          some ⟨some "22.5", some "Normal weight",
            some ⟨"high", "Diabetes"⟩, none⟩⟩
        none) :=
  family_limited_card_independent_of_recent_symptoms _ _ _ (by decide)

/-! ## Grouping records by date (health_dashboard.js renderSymptomsSummary,
health_risk_predictor.js renderRiskAssessments)

Both renderers build a dictionary keyed by the record date by pushing each
record, in input order, onto the array stored under its key (so keys appear in
first-seen order and each group keeps the input order), and then sort the keys
in descending date order with the comparator Date(b) - Date(a). Dates are
modelled by their parsed timestamps (integers), which identifies a date string
with its Date value. The dictionary stage is modelled by collecting the keys
in first-seen order and pairing each key with the sublist of records carrying
that date.
-/

/-- Keys of a JavaScript object built by insertion, in first-seen order: the
accumulator seen holds the keys already present. -/
def firstSeenAux {α : Type} [DecidableEq α] (seen : List α) : List α → List α
  | [] => []
  | a :: l => if a ∈ seen then firstSeenAux seen l else a :: firstSeenAux (a :: seen) l

/-- The keys of a dictionary built by inserting the listed keys in order. -/
def firstSeenKeys {α : Type} [DecidableEq α] (l : List α) : List α :=
  firstSeenAux [] l

theorem firstSeenAux_mem {α : Type} [DecidableEq α] :
    ∀ (l seen : List α) (x : α), x ∈ firstSeenAux seen l → x ∈ l ∧ x ∉ seen := by
  intro l
  induction l with
  | nil => intro seen x hx; simp [firstSeenAux] at hx
  | cons a l ih =>
    intro seen x hx
    rw [firstSeenAux] at hx
    by_cases ha : a ∈ seen
    · rw [if_pos ha] at hx
      obtain ⟨h1, h2⟩ := ih seen x hx
      exact ⟨List.mem_cons_of_mem a h1, h2⟩
    · rw [if_neg ha] at hx
      rcases List.mem_cons.mp hx with rfl | hx'
      · exact ⟨List.mem_cons_self _ _, ha⟩
      · obtain ⟨h1, h2⟩ := ih (a :: seen) x hx'
        exact ⟨List.mem_cons_of_mem a h1, fun hc => h2 (List.mem_cons_of_mem a hc)⟩

theorem firstSeenAux_nodup {α : Type} [DecidableEq α] :
    ∀ (l seen : List α), (firstSeenAux seen l).Nodup := by
  intro l
  induction l with
  | nil => intro seen; simp [firstSeenAux]
  | cons a l ih =>
    intro seen
    rw [firstSeenAux]
    by_cases ha : a ∈ seen
    · rw [if_pos ha]; exact ih seen
    · rw [if_neg ha]
      refine List.nodup_cons.mpr ⟨?_, ih (a :: seen)⟩
      intro hc
      exact (firstSeenAux_mem l (a :: seen) a hc).2 (List.mem_cons_self _ _)

theorem firstSeenAux_complete {α : Type} [DecidableEq α] :
    ∀ (l seen : List α) (x : α), x ∈ l → x ∉ seen → x ∈ firstSeenAux seen l := by
  intro l
  induction l with
  | nil => intro seen x hx; simp at hx
  | cons a l ih =>
    intro seen x hx hseen
    rw [firstSeenAux]
    by_cases ha : a ∈ seen
    · rw [if_pos ha]
      rcases List.mem_cons.mp hx with rfl | hx'
      · exact absurd ha hseen
      · exact ih seen x hx' hseen
    · rw [if_neg ha]
      rcases List.mem_cons.mp hx with rfl | hx'
      · exact List.mem_cons_self _ _
      · by_cases hxa : x = a
        · subst hxa; exact List.mem_cons_self _ _
        · refine List.mem_cons_of_mem a (ih (a :: seen) x hx' ?_)
          intro hc
          rcases List.mem_cons.mp hc with h | h
          · exact hxa h
          · exact hseen h

theorem firstSeenKeys_nodup {α : Type} [DecidableEq α] (l : List α) :
    (firstSeenKeys l).Nodup :=
  firstSeenAux_nodup l []

theorem mem_firstSeenKeys {α : Type} [DecidableEq α] {l : List α} {x : α}
    (h : x ∈ l) : x ∈ firstSeenKeys l :=
  firstSeenAux_complete l [] x h (by simp)

/-- A dated symptom record as consumed by renderSymptomsSummary, with the date
identified with its parsed timestamp. -/
structure DatedSymptom where
  date : Int
  symptom_name : String
  severity : Int
deriving DecidableEq

/-- The grouped, date-sorted structure built by
HealthDashboard.renderSymptomsSummary (health_dashboard.js lines 252-264) and,
with assessments instead of symptoms, by
HealthRiskPredictor.renderRiskAssessments (lines 94-124): the dictionary keyed
by date, with keys subsequently sorted in descending date order by the
comparator Date(b) - Date(a), each key paired with its records in input
order. -/
def groupSymptomsByDate (rs : List DatedSymptom) :
    List (Int × List DatedSymptom) :=
  let keys := firstSeenKeys (rs.map DatedSymptom.date)
  let sorted := List.insertionSort (fun a b : Int => a ≥ b) keys
  sorted.map (fun d => (d, rs.filter (fun r => r.date = d)))

/-- C4: the date groups are ordered strictly descending by date, and within a
group the records keep their input order: every group is a sublist of the
input consisting exactly of the records carrying that date. -/
theorem group_by_date_sorted_desc_and_stable (rs : List DatedSymptom) :
    ((groupSymptomsByDate rs).map Prod.fst).Pairwise (fun a b => b < a) ∧
    ∀ d g, (d, g) ∈ groupSymptomsByDate rs →
      g.Sublist rs ∧ ∀ r, r ∈ g ↔ r ∈ rs ∧ r.date = d := by
  constructor
  · have hnd : (firstSeenKeys (rs.map DatedSymptom.date)).Nodup :=
      firstSeenKeys_nodup _
    have hperm :
        List.Perm
          (List.insertionSort (fun a b : Int => a ≥ b)
            (firstSeenKeys (rs.map DatedSymptom.date)))
          (firstSeenKeys (rs.map DatedSymptom.date)) :=
      List.perm_insertionSort _ _
    have hnd2 :
        (List.insertionSort (fun a b : Int => a ≥ b)
          (firstSeenKeys (rs.map DatedSymptom.date))).Nodup :=
      hperm.nodup_iff.mpr hnd
    have hsorted :
        (List.insertionSort (fun a b : Int => a ≥ b)
          (firstSeenKeys (rs.map DatedSymptom.date))).Sorted
            (fun a b : Int => a ≥ b) :=
      List.sorted_insertionSort _ _
    have hmap :
        (groupSymptomsByDate rs).map Prod.fst =
          List.insertionSort (fun a b : Int => a ≥ b)
            (firstSeenKeys (rs.map DatedSymptom.date)) := by
      simp [groupSymptomsByDate, List.map_map, Function.comp_def]
    rw [hmap]
    have hcomb := List.Pairwise.and hsorted hnd2
    exact hcomb.imp (fun h => lt_of_le_of_ne h.1 (Ne.symm h.2))
  · intro d g hmem
    rw [groupSymptomsByDate] at hmem
    simp only [List.mem_map, Prod.mk.injEq] at hmem
    obtain ⟨d', _, hd, hg⟩ := hmem
    subst hd
    subst hg
    refine ⟨List.filter_sublist rs, ?_⟩
    intro r
    simp [List.mem_filter]

/-- Witness for group_by_date_sorted_desc_and_stable on a concrete input with
a repeated date: the group dates are strictly descending and the group for
date 5 is the input-order sublist of input records dated 5. -/
theorem group_by_date_witness :
    (((groupSymptomsByDate
        [⟨5, "Fever", 2⟩, ⟨3, "Cough", 1⟩, ⟨5, "Headache", 7⟩]).map
          Prod.fst).Pairwise (fun a b => b < a)) ∧
    ([⟨5, "Fever", 2⟩, ⟨5, "Headache", 7⟩] : List DatedSymptom).Sublist
      [⟨5, "Fever", 2⟩, ⟨3, "Cough", 1⟩, ⟨5, "Headache", 7⟩] :=
  ⟨(group_by_date_sorted_desc_and_stable _).1,
    ((group_by_date_sorted_desc_and_stable
        [⟨5, "Fever", 2⟩, ⟨3, "Cough", 1⟩, ⟨5, "Headache", 7⟩]).2 5
      [⟨5, "Fever", 2⟩, ⟨5, "Headache", 7⟩] (by decide)).1⟩

/-! ## Chart point binding (health_dashboard.js)

renderSymptomChart (lines 895-921) groups symptom records by name and binds
each dataset with data: points.sort((a, b) => a.x - b.x), an ascending stable
sort by time. renderMetricsCharts (lines 198-243) binds each metric chart with
labels: metric.data.map(item => item.date) and data:
metric.data.map(item => item.value), with no sort: the points are bound in the
order in which the server delivered them. Timestamps are modelled as integers
(Date values), severities as integers and metric values as rationals.
-/

/-- A point of the symptom chart: x is the record timestamp, y the parsed
severity. -/
structure ChartPoint where
  x : Int
  y : Int
deriving DecidableEq

/-- The data binding of one symptom-chart dataset (health_dashboard.js line
914): the points sorted ascending by time with a stable sort. -/
def bindSymptomSeriesData (pts : List ChartPoint) : List ChartPoint :=
  List.insertionSort (fun p q : ChartPoint => p.x ≤ q.x) pts

/-- One entry of metric.data as delivered by the health-dashboard endpoint. -/
structure MetricDataItem where
  date : String
  value : ℚ
deriving DecidableEq

/-- The bound labels and values of one metric chart. -/
structure MetricChartData where
  labels : List String
  dataValues : List ℚ
deriving DecidableEq

/-- The chart data binding of HealthDashboard.renderMetricsCharts
(health_dashboard.js lines 199-209): labels and values are mapped from
metric.data in its given order, with no sorting. -/
def bindMetricChartData (data : List MetricDataItem) : MetricChartData :=
  { labels := data.map MetricDataItem.date,
    dataValues := data.map MetricDataItem.value }

instance : IsTotal ChartPoint (fun p q => p.x ≤ q.x) :=
  ⟨fun p q => le_total p.x q.x⟩

instance : IsTrans ChartPoint (fun p q => p.x ≤ q.x) :=
  ⟨fun _ _ _ h1 h2 => le_trans h1 h2⟩

instance : IsAntisymm ChartPoint (fun p q => p.x < q.x) :=
  ⟨fun _ _ h1 h2 => absurd (lt_trans h1 h2) (lt_irrefl _)⟩

theorem pairwise_lt_of_sorted_le_nodup (l : List ChartPoint)
    (hs : l.Sorted (fun p q => p.x ≤ q.x))
    (hnd : (l.map ChartPoint.x).Nodup) :
    l.Pairwise (fun p q => p.x < q.x) := by
  have hne : l.Pairwise (fun p q => p.x ≠ q.x) :=
    List.pairwise_map.mp hnd
  exact (List.Pairwise.and hs hne).imp (fun h => lt_of_le_of_ne h.1 h.2)

/-- C5 counterexample: the metric-chart binder preserves the input order, so
the two heart-rate samples of the claimed scenario bind to different series
when the input array is reversed. -/
theorem metric_chart_binding_depends_on_input_order :
    bindMetricChartData
        [⟨"2024-01-01", 72⟩, ⟨"2024-01-02", 80⟩] ≠
      bindMetricChartData
        (List.reverse [⟨"2024-01-01", 72⟩, ⟨"2024-01-02", 80⟩]) := by
  decide

/-- C5 amended: in the symptom chart the bound data is sorted ascending by
time, and for a point list whose timestamps are pairwise distinct any
reordering of the input, in particular reversal, binds to the identical
series; the metric charts instead bind labels and values in input order
without sorting, so reversing the input reverses the bound labels. -/
theorem chart_binding_sort_behavior (pts : List ChartPoint) :
    (bindSymptomSeriesData pts).Sorted (fun p q => p.x ≤ q.x) ∧
    (∀ pts' : List ChartPoint, List.Perm pts' pts →
      (pts.map ChartPoint.x).Nodup →
      bindSymptomSeriesData pts' = bindSymptomSeriesData pts) ∧
    (∀ data : List MetricDataItem,
      (bindMetricChartData data.reverse).labels =
        (bindMetricChartData data).labels.reverse) := by
  refine ⟨List.sorted_insertionSort _ _, ?_, ?_⟩
  · intro pts' hperm hnd
    have hperm1 : List.Perm (bindSymptomSeriesData pts') pts' :=
      List.perm_insertionSort _ _
    have hperm2 : List.Perm (bindSymptomSeriesData pts) pts :=
      List.perm_insertionSort _ _
    have hperm3 : List.Perm (bindSymptomSeriesData pts')
        (bindSymptomSeriesData pts) :=
      (hperm1.trans hperm).trans hperm2.symm
    have hnd2 : ((bindSymptomSeriesData pts).map ChartPoint.x).Nodup :=
      ((hperm2.map ChartPoint.x).nodup_iff).mpr hnd
    have hnd1 : ((bindSymptomSeriesData pts').map ChartPoint.x).Nodup :=
      ((hperm3.map ChartPoint.x).nodup_iff).mpr hnd2
    exact List.eq_of_perm_of_sorted hperm3
      (pairwise_lt_of_sorted_le_nodup _ (List.sorted_insertionSort _ _) hnd1)
      (pairwise_lt_of_sorted_le_nodup _ (List.sorted_insertionSort _ _) hnd2)
  · intro data
    simp [bindMetricChartData]

/-- Witness for chart_binding_sort_behavior: two symptom points with distinct
timestamps bind to the same sorted series when fed in reverse order. -/
theorem chart_binding_sort_behavior_witness :
    bindSymptomSeriesData [⟨2, 8⟩, ⟨1, 3⟩] =
      bindSymptomSeriesData [⟨1, 3⟩, ⟨2, 8⟩] :=
  (chart_binding_sort_behavior [⟨1, 3⟩, ⟨2, 8⟩]).2.1
    [⟨2, 8⟩, ⟨1, 3⟩] (by decide) (by decide)

/-! ## Mutating user actions (health_risk_predictor.js predictRisks,
health_dashboard.js addHealthMetric, symptom_timeline.js saveSymptomRecord)

Each handler is modelled as a pure function from the pre-action view state and
the outcome of the network request to the post-action state, paired with the
list of requests actually issued. Notifications accumulate as message and type
pairs. The request outcome parameter stands for the resolution of the fetch
promise; when validation returns early the outcome is never consulted and the
request list is empty.
-/

/-- Resolution of a fetch call: success, or a failure of any kind (network
error, non-2xx status, parse error), all reaching the single catch handler. -/
inductive RequestOutcome where
  | success
  | failure (message : String)
deriving DecidableEq

/-- A request issued to the backend. -/
structure ApiRequest where
  method : String
  path : String
deriving DecidableEq

/-- The spinner markup installed on the predict button while the request is in
flight (health_risk_predictor.js line 215). -/
def predictorSpinnerHtml : String :=
  "<span class=\"spinner-border spinner-border-sm\" role=\"status\" aria-hidden=\"true\"></span> Analyzing..."

/-- View state of the risk-predictor button and notification area. -/
structure PredictorState where
  btnLabel : String
  btnDisabled : Bool
  notifications : List (String × String)
deriving DecidableEq

/-- HealthRiskPredictor.predictRisks (health_risk_predictor.js lines 211-269):
the original button label is captured, the button shows the spinner and is
disabled, the prediction request is issued, and both the success and the
failure continuation restore the captured label and re-enable the button after
surfacing a notification. The lifestyle-factor inputs are only read, never
written. -/
def predictRisks (uid : String) (s : PredictorState) (outcome : RequestOutcome) :
    PredictorState × List ApiRequest :=
  let originalText := s.btnLabel
  let s1 : PredictorState :=
    { s with btnLabel := predictorSpinnerHtml, btnDisabled := true }
  let req : ApiRequest :=
    { method := "POST", path := "/api/users/" ++ uid ++ "/predict-health-risks" }
  match outcome with
  | .success =>
      ({ s1 with
          notifications := s1.notifications ++
            [("Health risk assessment completed successfully", "success")],
          btnLabel := originalText, btnDisabled := false }, [req])
  | .failure _ =>
      ({ s1 with
          notifications := s1.notifications ++
            [("Error performing risk assessment. Please try again.", "error")],
          btnLabel := originalText, btnDisabled := false }, [req])

/-- A numeric form field as read from the DOM: empty, a nonempty string that
does not parse as a number (isNaN), or a parsed numeric value. -/
inductive FormNumber where
  | empty
  | nonNumeric (raw : String)
  | num (value : ℚ)
deriving DecidableEq

/-- View state of the add-metric modal form of the dashboard. The submit
control is never disabled by addHealthMetric, so submitDisabled is carried
through unchanged. -/
structure MetricFormState where
  metricType : String
  metricValue : FormNumber
  metricUnit : String
  metricDate : String
  submitDisabled : Bool
  modalOpen : Bool
  notifications : List (String × String)
deriving DecidableEq

/-- HealthDashboard.addHealthMetric (health_dashboard.js lines 488-548): an
empty metric type or an empty or non-numeric metric value notifies an error
and returns before any request; otherwise the POST is issued, the success
continuation resets the form and closes the modal, and the failure
continuation only notifies the error, leaving the form untouched. -/
def addHealthMetric (uid : String) (s : MetricFormState)
    (outcome : RequestOutcome) : MetricFormState × List ApiRequest :=
  if s.metricType = "" then
    ({ s with notifications := s.notifications ++
        [("Please select a metric type", "error")] }, [])
  else
    match s.metricValue with
    | .empty =>
        ({ s with notifications := s.notifications ++
            [("Please enter a valid metric value", "error")] }, [])
    | .nonNumeric _ =>
        ({ s with notifications := s.notifications ++
            [("Please enter a valid metric value", "error")] }, [])
    | .num _ =>
        let req : ApiRequest :=
          { method := "POST", path := "/api/users/" ++ uid ++ "/health-metrics" }
        match outcome with
        | .success =>
            ({ s with metricType := "", metricValue := .empty,
                      metricUnit := "", metricDate := "", modalOpen := false,
                      notifications := s.notifications ++
                        [("Health metric added successfully", "success")] },
              [req])
        | .failure _ =>
            ({ s with notifications := s.notifications ++
                [("Error adding health metric. Please try again.", "error")] },
              [req])

/-- View state of the add-symptom form of the timeline module. The severity
input is modelled as the parsed integer, absent when the field is empty. -/
structure SymptomFormState where
  symptomId : String
  severity : Option Int
  notes : String
  datetime : String
  medicationTaken : String
  doctorVisited : Bool
  formVisible : Bool
  notifications : List (String × String)
deriving DecidableEq

/-- SymptomTimeline.saveSymptomRecord (symptom_timeline.js lines 444-508): an
empty symptom selection, an empty severity, or a severity outside 1 to 10
notifies an error and returns before any request; otherwise the POST is
issued, the success continuation resets and hides the form, and the failure
continuation only notifies the error. -/
def saveSymptomRecord (uid : String) (s : SymptomFormState)
    (outcome : RequestOutcome) : SymptomFormState × List ApiRequest :=
  if s.symptomId = "" then
    ({ s with notifications := s.notifications ++
        [("Please select a symptom", "error")] }, [])
  else
    match s.severity with
    | none =>
        ({ s with notifications := s.notifications ++
            [("Please enter a severity between 1-10", "error")] }, [])
    | some v =>
        if v < 1 ∨ 10 < v then
          ({ s with notifications := s.notifications ++
              [("Please enter a severity between 1-10", "error")] }, [])
        else
          let req : ApiRequest :=
            { method := "POST", path := "/api/users/" ++ uid ++ "/symptoms" }
          match outcome with
          | .success =>
              ({ s with symptomId := "", severity := none, notes := "",
                        datetime := "", medicationTaken := "",
                        doctorVisited := false, formVisible := false,
                        notifications := s.notifications ++
                          [("Symptom recorded successfully", "success")] },
                [req])
          | .failure _ =>
              ({ s with notifications := s.notifications ++
                  [("Error saving symptom record. Please try again.", "error")] },
                [req])

/-- C6: when the request of a mutating action fails, the trigger control is
restored to its pre-action state: the predict button regains its original
label and is re-enabled (so no spinner remains), the failure is surfaced as an
error notification, and a failed add-metric POST leaves every form input value
unchanged with the submit control still enabled. -/
theorem failed_request_restores_control_state (uid msg : String)
    (s : PredictorState) (f : MetricFormState)
    (hty : f.metricType ≠ "") (hval : ∃ v, f.metricValue = FormNumber.num v)
    (hdis : f.submitDisabled = false) :
    (predictRisks uid s (.failure msg)).1.btnLabel = s.btnLabel ∧
    (predictRisks uid s (.failure msg)).1.btnDisabled = false ∧
    (predictRisks uid s (.failure msg)).1.notifications =
      s.notifications ++
        [("Error performing risk assessment. Please try again.", "error")] ∧
    (addHealthMetric uid f (.failure msg)).1.metricType = f.metricType ∧
    (addHealthMetric uid f (.failure msg)).1.metricValue = f.metricValue ∧
    (addHealthMetric uid f (.failure msg)).1.metricUnit = f.metricUnit ∧
    (addHealthMetric uid f (.failure msg)).1.metricDate = f.metricDate ∧
    (addHealthMetric uid f (.failure msg)).1.submitDisabled = false ∧
    (addHealthMetric uid f (.failure msg)).1.notifications =
      f.notifications ++
        [("Error adding health metric. Please try again.", "error")] := by
  obtain ⟨v, hv⟩ := hval
  refine ⟨rfl, rfl, rfl, ?_, ?_, ?_, ?_, ?_, ?_⟩ <;>
    simp [addHealthMetric, hty, hv, hdis]

/-- Witness for failed_request_restores_control_state on concrete states. -/
theorem failed_request_restores_control_state_witness :
    (predictRisks "1" ⟨"Predict", false, []⟩ (.failure "boom")).1.btnLabel =
      "Predict" ∧
    (addHealthMetric "1"
        ⟨"heart_rate", FormNumber.num 72, "bpm", "2024-01-01", false, true, []⟩
        (.failure "boom")).1.metricValue = FormNumber.num 72 :=
  ⟨(failed_request_restores_control_state "1" "boom" ⟨"Predict", false, []⟩
      ⟨"heart_rate", FormNumber.num 72, "bpm", "2024-01-01", false, true, []⟩
      (by decide) ⟨72, rfl⟩ rfl).1,
   (failed_request_restores_control_state "1" "boom" ⟨"Predict", false, []⟩
      ⟨"heart_rate", FormNumber.num 72, "bpm", "2024-01-01", false, true, []⟩
      (by decide) ⟨72, rfl⟩ rfl).2.2.2.2.1⟩

/-- C7: a form submission that fails validation issues no network request and
surfaces an immediate error notification: a missing symptom selection, a
severity outside 1 to 10, a missing metric type, and an empty or non-numeric
metric value each return before the fetch layer with exactly one appended
error notification. -/
theorem validation_error_blocks_network (uid : String) (sf : SymptomFormState)
    (mf : MetricFormState) (o : RequestOutcome) :
    (sf.symptomId = "" →
      (saveSymptomRecord uid sf o).2 = [] ∧
      (saveSymptomRecord uid sf o).1.notifications =
        sf.notifications ++ [("Please select a symptom", "error")]) ∧
    (sf.symptomId ≠ "" →
      (sf.severity = none ∨ ∃ v, sf.severity = some v ∧ (v < 1 ∨ 10 < v)) →
      (saveSymptomRecord uid sf o).2 = [] ∧
      (saveSymptomRecord uid sf o).1.notifications =
        sf.notifications ++ [("Please enter a severity between 1-10", "error")]) ∧
    (mf.metricType = "" →
      (addHealthMetric uid mf o).2 = [] ∧
      (addHealthMetric uid mf o).1.notifications =
        mf.notifications ++ [("Please select a metric type", "error")]) ∧
    (mf.metricType ≠ "" →
      (mf.metricValue = FormNumber.empty ∨
        ∃ r, mf.metricValue = FormNumber.nonNumeric r) →
      (addHealthMetric uid mf o).2 = [] ∧
      (addHealthMetric uid mf o).1.notifications =
        mf.notifications ++ [("Please enter a valid metric value", "error")]) := by
  refine ⟨?_, ?_, ?_, ?_⟩
  · intro h
    constructor <;> simp [saveSymptomRecord, h]
  · intro h hsv
    rcases hsv with hnone | ⟨v, hv, hrange⟩
    · constructor <;> simp [saveSymptomRecord, h, hnone]
    · constructor <;> simp [saveSymptomRecord, h, hv, hrange]
  · intro h
    constructor <;> simp [addHealthMetric, h]
  · intro h hmv
    rcases hmv with hempty | ⟨r, hr⟩
    · constructor <;> simp [addHealthMetric, h, hempty]
    · constructor <;> simp [addHealthMetric, h, hr]

/-- Witness for validation_error_blocks_network: an out-of-range severity and
a non-numeric metric value each issue no request. -/
theorem validation_error_blocks_network_witness :
    (saveSymptomRecord "1"
        ⟨"4", some 12, "", "", "", false, true, []⟩ .success).2 = [] ∧
    (addHealthMetric "1"
        ⟨"heart_rate", FormNumber.nonNumeric "abc", "bpm", "", false, true, []⟩
        .success).2 = [] :=
  ⟨((validation_error_blocks_network "1"
        ⟨"4", some 12, "", "", "", false, true, []⟩
        ⟨"heart_rate", FormNumber.nonNumeric "abc", "bpm", "", false, true, []⟩
        .success).2.1 (by decide) (Or.inr ⟨12, rfl, by decide⟩)).1,
   ((validation_error_blocks_network "1"
        ⟨"4", some 12, "", "", "", false, true, []⟩
        ⟨"heart_rate", FormNumber.nonNumeric "abc", "bpm", "", false, true, []⟩
        .success).2.2.2 (by decide) (Or.inr ⟨"abc", rfl⟩)).1⟩

/-! ## Missing or unparsable dates in the date-grouping renderers

HealthRiskPredictor.renderRiskAssessments (health_risk_predictor.js lines
94-114) skips an assessment whose assessment_date is falsy, emitting one
console.warn per skipped record, and otherwise groups the assessment under
the key new Date(assessment_date).toLocaleDateString(). That key computation
never throws in JavaScript: an unparsable date yields the key string Invalid
Date, so such records are grouped, not excluded; the date-to-key function is
therefore a parameter here. HealthDashboard.renderSymptomsSummary
(health_dashboard.js lines 252-264) performs no check at all: a missing date
is used directly as the dictionary key, which JavaScript coerces to the
string undefined.
-/

/-- A risk-assessment record as consumed by the predictor renderer. -/
structure RiskAssessmentRecord where
  disease_name : String
  risk_level : String
  assessment_date : Option String
deriving DecidableEq

/-- The truthiness check on assessment.assessment_date: absent and empty
fail. -/
def assessmentHasDate (a : RiskAssessmentRecord) : Bool :=
  match a.assessment_date with
  | none => false
  | some d => if d = "" then false else true

/-- The dictionary key of a record that passed the truthiness check. -/
def assessmentDateKey (dateKey : String → String)
    (a : RiskAssessmentRecord) : String :=
  match a.assessment_date with
  | none => ""
  | some d => dateKey d

/-- The dictionary stage of HealthRiskPredictor.renderRiskAssessments with the
skipped records counted (one console.warn per skipped record): records failing
the date truthiness check are skipped, the rest are grouped by their date key
in first-seen key order, each group in input order. -/
def groupAssessmentsByDate (dateKey : String → String)
    (as : List RiskAssessmentRecord) :
    List (String × List RiskAssessmentRecord) × Nat :=
  let kept := as.filter assessmentHasDate
  let keys := firstSeenKeys (kept.map (assessmentDateKey dateKey))
  (keys.map (fun k => (k, kept.filter (fun a => assessmentDateKey dateKey a = k))),
   as.countP (fun a => ! assessmentHasDate a))

/-- A symptom record as consumed by renderSymptomsSummary, with its raw,
possibly absent date field. -/
structure RawDashSymptom where
  date : Option String
  symptom_name : String
  severity : Int
deriving DecidableEq

/-- The dictionary key used by renderSymptomsSummary: the raw date field,
coerced by JavaScript to the string undefined when the field is absent. -/
def rawSymptomDateKey (s : RawDashSymptom) : String :=
  match s.date with
  | none => "undefined"
  | some d => d

/-- The dictionary stage of HealthDashboard.renderSymptomsSummary
(health_dashboard.js lines 253-259): every record, checked or not, is pushed
under its date key. -/
def groupDashboardSymptomsRaw (symptoms : List RawDashSymptom) :
    List (String × List RawDashSymptom) :=
  (firstSeenKeys (symptoms.map rawSymptomDateKey)).map
    (fun k => (k, symptoms.filter (fun s => rawSymptomDateKey s = k)))

/-- C8 counterexample: the dashboard symptom renderer does not exclude a
record whose date field is missing; the record is grouped under the key
undefined with no skip count or log, so the claimed exclusion policy fails
for this date-grouping renderer. -/
theorem dashboard_missing_date_record_not_excluded :
    groupDashboardSymptomsRaw [⟨none, "Headache", 5⟩] =
      [("undefined", [⟨none, "Headache", 5⟩])] := by
  decide

/-- C8 amended: only the risk-predictor renderer implements the skip policy,
and only for falsy dates: a record without a truthy assessment_date appears in
no group and each such record is counted by a console.warn, while a record
with a truthy date, parsable or not, is always grouped under its date key; the
dashboard symptom renderer excludes nothing: every record, including records
with a missing date, appears in the group of its (coerced) date key. -/
theorem date_grouping_skip_and_inclusion (dateKey : String → String)
    (as : List RiskAssessmentRecord) (a : RiskAssessmentRecord)
    (symptoms : List RawDashSymptom) (s : RawDashSymptom) :
    (assessmentHasDate a = false →
      ∀ k g, (k, g) ∈ (groupAssessmentsByDate dateKey as).1 → a ∉ g) ∧
    ((groupAssessmentsByDate dateKey as).2 =
      as.countP (fun x => ! assessmentHasDate x)) ∧
    (a ∈ as → assessmentHasDate a = true →
      ∃ g, (assessmentDateKey dateKey a, g) ∈ (groupAssessmentsByDate dateKey as).1 ∧
        a ∈ g) ∧
    (s ∈ symptoms →
      ∃ g, (rawSymptomDateKey s, g) ∈ groupDashboardSymptomsRaw symptoms ∧
        s ∈ g) := by
  refine ⟨?_, rfl, ?_, ?_⟩
  · intro hfalse k g hkg hag
    rw [groupAssessmentsByDate] at hkg
    simp only [List.mem_map, Prod.mk.injEq] at hkg
    obtain ⟨k', _, hk, hg⟩ := hkg
    subst hg
    have hmem := List.mem_filter.mp hag
    have := List.mem_filter.mp hmem.1
    rw [hfalse] at this
    exact absurd this.2 (by simp)
  · intro hmem htrue
    have hkept : a ∈ as.filter assessmentHasDate :=
      List.mem_filter.mpr ⟨hmem, htrue⟩
    have hkey : assessmentDateKey dateKey a ∈
        firstSeenKeys ((as.filter assessmentHasDate).map (assessmentDateKey dateKey)) :=
      mem_firstSeenKeys (List.mem_map_of_mem _ hkept)
    refine ⟨(as.filter assessmentHasDate).filter
      (fun x => assessmentDateKey dateKey x = assessmentDateKey dateKey a), ?_, ?_⟩
    · rw [groupAssessmentsByDate]
      simp only [List.mem_map]
      exact ⟨assessmentDateKey dateKey a, hkey, by simp⟩
    · exact List.mem_filter.mpr ⟨hkept, by simp⟩
  · intro hmem
    have hkey : rawSymptomDateKey s ∈
        firstSeenKeys (symptoms.map rawSymptomDateKey) :=
      mem_firstSeenKeys (List.mem_map_of_mem _ hmem)
    refine ⟨symptoms.filter (fun x => rawSymptomDateKey x = rawSymptomDateKey s),
      ?_, ?_⟩
    · rw [groupDashboardSymptomsRaw]
      simp only [List.mem_map]
      exact ⟨rawSymptomDateKey s, hkey, by simp⟩
    · exact List.mem_filter.mpr ⟨hmem, by simp⟩

/-- Witness for date_grouping_skip_and_inclusion: with the identity date-key
function, a dateless assessment lands in no group of a concrete two-record
input, and a dashboard symptom with a missing date is present in its group. -/
theorem date_grouping_skip_and_inclusion_witness :
    (⟨"Diabetes", "high", none⟩ : RiskAssessmentRecord) ∉
      (match (groupAssessmentsByDate id
          [⟨"Diabetes", "high", none⟩,
           ⟨"Hypertension", "low", some "2024-01-05"⟩]).1 with
        | [] => []
        | g :: _ => g.2) ∧
    ∃ g, ("undefined", g) ∈
        groupDashboardSymptomsRaw [⟨none, "Headache", 5⟩] ∧
      (⟨none, "Headache", 5⟩ : RawDashSymptom) ∈ g := by
  constructor
  · intro hmem
    exact absurd hmem
      ((date_grouping_skip_and_inclusion id
          [⟨"Diabetes", "high", none⟩,
           ⟨"Hypertension", "low", some "2024-01-05"⟩]
          ⟨"Diabetes", "high", none⟩ [] ⟨none, "Headache", 5⟩).1 rfl
        "2024-01-05"
        [⟨"Hypertension", "low", some "2024-01-05"⟩] (by decide))
  · exact (date_grouping_skip_and_inclusion id []
      ⟨"Diabetes", "high", none⟩ [⟨none, "Headache", 5⟩]
      ⟨none, "Headache", 5⟩).2.2.2 (by decide)

/-! ## Timeline fetch URL (symptom_timeline.js, fetchTimelineData)

fetchTimelineData (lines 110-147) reads the two filter inputs, appends
start_date and end_date to a URLSearchParams object only when truthy, and
appends a question mark and the serialized parameters to the base path only
when the serialization is nonempty. URLSearchParams serializes as
key=value pairs joined by ampersands, percent-encoding reserved characters;
that encoding is the identity on ISO date strings (digits and hyphens), so
the model restricts itself to such inputs and serializes without encoding.
-/

/-- Characters of an ISO date string: digits and hyphens. -/
def isIsoDateChar (c : Char) : Bool := c.isDigit || c = '-'

/-- Whether a filter value is a pure ISO date string, on which URLSearchParams
encoding is the identity. -/
def isIsoDateString (s : String) : Bool := s.data.all isIsoDateChar

/-- Lexicographic order on character lists; on ISO date strings of equal shape
this coincides with chronological order. -/
def charListLe : List Char → List Char → Bool
  | [], _ => true
  | _ :: _, [] => false
  | a :: as, b :: bs =>
    if a < b then true else if b < a then false else charListLe as bs

/-- The valid-range condition start_date at most end_date: an absent (empty)
bound means unbounded, so the lexicographic comparison constrains the inputs
only when both bounds are present. -/
def validDateRange (s t : String) : Bool :=
  if s = "" then true
  else if t = "" then true
  else charListLe s.data t.data

/-- URLSearchParams.toString on already-encoded pairs: key=value joined by
ampersands. -/
def serializeParams : List (String × String) → String
  | [] => ""
  | [p] => p.1 ++ "=" ++ p.2
  | p :: rest => p.1 ++ "=" ++ p.2 ++ "&" ++ serializeParams rest

/-- The parameter list built by fetchTimelineData: start_date is appended when
truthy, then end_date when truthy (symptom_timeline.js lines 135-138). -/
def timelineParams (startDate endDate : String) : List (String × String) :=
  (if startDate = "" then [] else [("start_date", startDate)]) ++
  (if endDate = "" then [] else [("end_date", endDate)])

/-- The GET URL issued by SymptomTimeline.fetchTimelineData (symptom_timeline.js
lines 134-142): the base path gets a question mark and the query string only
when the serialized parameters are nonempty. -/
def timelineUrl (uid startDate endDate : String) : String :=
  let url := "/api/users/" ++ uid ++ "/timeline"
  let qs := serializeParams (timelineParams startDate endDate)
  if qs = "" then url else url ++ "?" ++ qs

theorem append_ne_empty_left (a b : String) (h : a ≠ "") : a ++ b ≠ "" := by
  intro hc
  apply h
  have hdata := congrArg String.data hc
  rw [String.data_append] at hdata
  rcases List.append_eq_nil.mp hdata with ⟨h1, _⟩
  cases a with
  | mk d => simp at h1; simp [h1]

/-- C9: for every pair of ISO-date filter inputs forming a valid range, where
an absent (empty) bound is unbounded and present bounds satisfy start_date at
most end_date, the issued GET URL carries exactly the provided bounds in its
query string: both present yields both parameters, one absent omits that
parameter, and both absent yields the bare path with no query string. -/
theorem fetch_timeline_query_exact (uid startDate endDate : String)
    (hs : isIsoDateString startDate = true)
    (he : isIsoDateString endDate = true)
    (hle : validDateRange startDate endDate = true) :
    (startDate ≠ "" → endDate ≠ "" →
      timelineUrl uid startDate endDate =
        "/api/users/" ++ uid ++ "/timeline?start_date=" ++ startDate ++
          "&end_date=" ++ endDate) ∧
    (startDate ≠ "" → endDate = "" →
      timelineUrl uid startDate endDate =
        "/api/users/" ++ uid ++ "/timeline?start_date=" ++ startDate) ∧
    (startDate = "" → endDate ≠ "" →
      timelineUrl uid startDate endDate =
        "/api/users/" ++ uid ++ "/timeline?end_date=" ++ endDate) ∧
    (startDate = "" → endDate = "" →
      timelineUrl uid startDate endDate = "/api/users/" ++ uid ++ "/timeline") := by
  refine ⟨?_, ?_, ?_, ?_⟩
  · intro h1 h2
    have hq : serializeParams (timelineParams startDate endDate) =
        "start_date=" ++ startDate ++ "&" ++ ("end_date=" ++ endDate) := by
      simp [timelineParams, h1, h2, serializeParams]
    have hne : ("start_date=" ++ startDate ++ "&" ++ ("end_date=" ++ endDate)) ≠ "" :=
      append_ne_empty_left _ _ (append_ne_empty_left _ _
        (append_ne_empty_left _ _ (by decide)))
    rw [timelineUrl, hq, if_neg hne]
    simp only [String.append_assoc]
    rfl
  · intro h1 h2
    have hq : serializeParams (timelineParams startDate endDate) =
        "start_date=" ++ startDate := by
      simp [timelineParams, h1, h2, serializeParams]
    have hne : ("start_date=" ++ startDate) ≠ "" :=
      append_ne_empty_left _ _ (by decide)
    rw [timelineUrl, hq, if_neg hne]
    simp only [String.append_assoc]
    rfl
  · intro h1 h2
    have hq : serializeParams (timelineParams startDate endDate) =
        "end_date=" ++ endDate := by
      simp [timelineParams, h1, h2, serializeParams]
    have hne : ("end_date=" ++ endDate) ≠ "" :=
      append_ne_empty_left _ _ (by decide)
    rw [timelineUrl, hq, if_neg hne]
    simp only [String.append_assoc]
    rfl
  · intro h1 h2
    have hq : serializeParams (timelineParams startDate endDate) = "" := by
      simp [timelineParams, h1, h2, serializeParams]
    rw [timelineUrl, hq, if_pos rfl]

/-- Witness for fetch_timeline_query_exact covering three concrete valid
ranges: both bounds present, end_date absent (omitted from the query string),
and both bounds absent (no query string at all). -/
theorem fetch_timeline_query_exact_witness :
    timelineUrl "1" "2024-01-01" "2024-02-01" =
      "/api/users/1/timeline?start_date=2024-01-01&end_date=2024-02-01" ∧
    timelineUrl "1" "2024-01-01" "" =
      "/api/users/1/timeline?start_date=2024-01-01" ∧
    timelineUrl "1" "" "" = "/api/users/1/timeline" :=
  ⟨(fetch_timeline_query_exact "1" "2024-01-01" "2024-02-01"
      (by decide) (by decide) (by decide)).1 (by decide) (by decide),
   (fetch_timeline_query_exact "1" "2024-01-01" ""
      (by decide) (by decide) (by decide)).2.1 (by decide) rfl,
   (fetch_timeline_query_exact "1" "" ""
      (by decide) (by decide) (by decide)).2.2.2 rfl rfl⟩
